import Mathlib

/-!
Verification of the gym-membership gamification application (React pages over a
managed Postgres backend).  The client pages, the serverless `suggest-exercises`
endpoint and the SQL row-level-security policies are shallowly embedded as
executable Lean definitions; JavaScript numbers are modelled by exact `Int`/`Rat`
arithmetic (`Math.round x` becomes `⌊x + 1/2⌋`, which agrees with JavaScript's
round-half-up), timestamps by natural-number minutes counted from a local Sunday
00:00, and JavaScript truthiness of optional numeric fields by "present and
nonzero".
-/

namespace FlexiQuest

/-- JavaScript `Math.round` on an exact rational: round half toward positive
infinity. -/
def mathRound (q : ℚ) : ℤ := ⌊q + 1/2⌋

/-- Executable round-half-up of the exact fraction `num / den` (for `den > 0`);
`roundHalfUp_spec` proves it agrees with `mathRound`. -/
def roundHalfUp (num den : ℤ) : ℤ := (2 * num + den) / (2 * den)

/-- JavaScript `String.prototype.trim`: strip leading and trailing whitespace
(executable embedding over the character list). -/
def jsTrim (s : String) : String :=
  String.mk (((s.data.dropWhile Char.isWhitespace).reverse.dropWhile
    Char.isWhitespace).reverse)

/-- JavaScript truthiness of an optional numeric field: `undefined` and `0` are
falsy, every other number is truthy. -/
def truthyNum : Option Int → Bool
  | none => false
  | some v => v != 0

/-- JavaScript `v || d` for an optional numeric value: the default is taken when
the value is absent or `0`. -/
def jsOrElse (v : Option Int) (d : Int) : Int :=
  match v with
  | none => d
  | some x => if x = 0 then d else x

/-! ## Data model (tables of the SQL schema, plus the client-side exercise type) -/

/-- An exercise of the Workout page (`interface Exercise`); the `id` and
`isAISuggested` fields play no role in the verified logic. -/
structure Exercise where
  name : String
  sets : Option Int := none
  reps : Option Int := none
  duration : Option Int := none
deriving Repr, DecidableEq

/-- A row of `public.profiles` (the columns the verified pages read). -/
structure ProfileRow where
  user_id : String
  name : Option String := none
  email : String := ""
  gym_id : Option String := none
  total_points : Int := 0
  created_at : Nat := 0
deriving Repr, DecidableEq

/-- A row of `public.workouts`. -/
structure WorkoutRow where
  user_id : String
  gym_id : Option String
  workout_type : String
  exercises : List Exercise
  total_duration_minutes : Int
  calories_burned : Int
  points_earned : Int
  created_at : Nat := 0
deriving Repr, DecidableEq

/-- A row of `public.gyms` (the columns the policies read). -/
structure GymRow where
  id : String
  owner_id : String
  name : String := ""
deriving Repr, DecidableEq

/-- A row of `public.user_roles`. -/
structure RoleRow where
  user_id : String
  role : String
deriving Repr, DecidableEq

/-- A row of `public.partners` (the columns the policies read). -/
structure PartnerRow where
  id : String
  gym_id : String
  company_name : String := ""
deriving Repr, DecidableEq

/-- The database state seen through the backend client. -/
structure DB where
  gyms : List GymRow := []
  profiles : List ProfileRow := []
  user_roles : List RoleRow := []
  workouts : List WorkoutRow := []
  partners : List PartnerRow := []
deriving Repr, DecidableEq

/-! ## Workout page: calorie/point formulas and the save handler -/

/-- The `workoutTypes` table of the Workout page, reduced to
`(value, caloriesPerMin)`. -/
def workoutTypes : List (String × Int) :=
  [("weights", 5), ("cardio", 10), ("aerobics", 8), ("hiit", 14),
   ("spinning", 12), ("other", 6)]

/-- `POINTS_PER_CALORIE = 0.1` of the Workout page, as an exact rational. -/
def POINTS_PER_CALORIE : ℚ := 1/10

/-- `workoutTypes.find((t) => t.value === selectedType)?.caloriesPerMin || 6`. -/
def caloriesPerMinFor (selectedType : String) : Int :=
  jsOrElse ((workoutTypes.find? (fun p => p.1 == selectedType)).map (·.2)) 6

/-- The loop body of `handleSaveWorkout`'s total-duration computation:
`if (ex.duration) total += ex.duration; else if (ex.sets && ex.reps) total += ex.sets`. -/
def durationStep (acc : Int) (ex : Exercise) : Int :=
  if truthyNum ex.duration then acc + ex.duration.getD 0
  else if truthyNum ex.sets && truthyNum ex.reps then acc + ex.sets.getD 0
  else acc

/-- `handleSaveWorkout`'s `totalDuration` over the already-filtered valid
exercises. -/
def totalDurationOf (validExercises : List Exercise) : Int :=
  validExercises.foldl durationStep 0

/-- The result of a successful save: the new database state and the inserted
workout row. -/
structure SaveOutcome where
  db : DB
  row : WorkoutRow
deriving Repr, DecidableEq

/-- `exercises.filter((ex) => ex.name.trim())` of `handleSaveWorkout`. -/
def validExercisesOf (exercises : List Exercise) : List Exercise :=
  exercises.filter (fun ex => jsTrim ex.name != "")

/-- The row passed to `supabase.from("workouts").insert` by `handleSaveWorkout`;
`now` models the `DEFAULT now()` of the `created_at` column. -/
def savedRow (db : DB) (uid selectedType : String) (exercises : List Exercise)
    (now : Nat) : WorkoutRow :=
  { user_id := uid
    gym_id := (db.profiles.find? (fun p => p.user_id == uid)).bind (·.gym_id)
    workout_type := selectedType
    exercises := validExercisesOf exercises
    total_duration_minutes := totalDurationOf (validExercisesOf exercises)
    calories_burned :=
      roundHalfUp (totalDurationOf (validExercisesOf exercises)
        * caloriesPerMinFor selectedType) 1
    points_earned :=
      roundHalfUp (roundHalfUp (totalDurationOf (validExercisesOf exercises)
        * caloriesPerMinFor selectedType) 1) 10
    created_at := now }

/-- The successful branch of `handleSaveWorkout`: insert the workout row and
update the profile's `total_points` to
`(profile?.total_points || 0) + pointsEarned` for the rows matching
`.eq("user_id", user.id)`. -/
def savedOutcome (db : DB) (uid selectedType : String) (exercises : List Exercise)
    (now : Nat) : SaveOutcome :=
  { db :=
      { db with
        workouts := db.workouts ++ [savedRow db uid selectedType exercises now]
        profiles := db.profiles.map (fun p =>
          if p.user_id == uid then
            { p with total_points :=
                jsOrElse ((db.profiles.find? (fun q => q.user_id == uid)).map
                  (·.total_points)) 0
                + (savedRow db uid selectedType exercises now).points_earned }
          else p) }
    row := savedRow db uid selectedType exercises now }

/-- `handleSaveWorkout` of the Workout page.  `none` models the early return
with the "Please add at least one exercise" toast (no database write); on
success the workout row is inserted and the user's profile `total_points` is
updated.  `now` models the server-side `DEFAULT now()` of `created_at`.
`Math.round(totalDuration * caloriesPerMin)` and
`Math.round(caloriesBurned * POINTS_PER_CALORIE)` are embedded as the exact
round-half-up of `totalDuration * caloriesPerMin` and of `caloriesBurned / 10`
(`POINTS_PER_CALORIE = 0.1 = 1/10` exactly). -/
def handleSaveWorkout (db : DB) (uid : String) (selectedType : String)
    (exercises : List Exercise) (now : Nat) : Option SaveOutcome :=
  if (validExercisesOf exercises).length = 0 then none
  else some (savedOutcome db uid selectedType exercises now)

/-! ## Rounding bridge -/

/-- The executable `roundHalfUp` agrees with the mathematical round-half-up
`mathRound` on the exact fraction `num / den`. -/
theorem roundHalfUp_spec (num den : ℤ) (h : 0 < den) :
    roundHalfUp num den = mathRound ((num : ℚ) / (den : ℚ)) := by
  have h2 : (0 : ℚ) < ((2 * den : ℤ) : ℚ) := by
    exact_mod_cast (show (0 : ℤ) < 2 * den by omega)
  have hd : ((den : ℤ) : ℚ) ≠ 0 := by
    exact_mod_cast (show (den : ℤ) ≠ 0 by omega)
  have key : (num : ℚ) / (den : ℚ) + 1 / 2
      = ((2 * num + den : ℤ) : ℚ) / ((2 * den : ℤ) : ℚ) := by
    field_simp
    ring
  have hmod := Int.ediv_add_emod (2 * num + den) (2 * den)
  have hmn := Int.emod_nonneg (2 * num + den) (show (2 * den : ℤ) ≠ 0 by omega)
  have hml := Int.emod_lt_of_pos (2 * num + den) (show (0 : ℤ) < 2 * den by omega)
  have hle : ((2 * num + den) / (2 * den)) * (2 * den) ≤ 2 * num + den := by linarith
  have hlt : 2 * num + den < ((2 * num + den) / (2 * den) + 1) * (2 * den) := by linarith
  unfold mathRound roundHalfUp
  rw [key]
  symm
  rw [Int.floor_eq_iff]
  refine ⟨?_, ?_⟩
  · rw [le_div_iff₀ h2]
    exact_mod_cast hle
  · rw [div_lt_iff₀ h2]
    exact_mod_cast hlt

/-- `roundHalfUp n 1` is the identity: rounding an integer changes nothing. -/
theorem roundHalfUp_one (n : ℤ) : roundHalfUp n 1 = n := by
  unfold roundHalfUp
  omega

/-! ## Claim-side formulations for the workout arithmetic -/

/-- The per-minute calorie table exactly as the claim lists it:
weights 5, cardio 10, aerobics 8, hiit 14, spinning 12, other 6
(`none` for a type outside the table). -/
def specKcalPerMin (t : String) : Option Int :=
  if t = "weights" then some 5
  else if t = "cardio" then some 10
  else if t = "aerobics" then some 8
  else if t = "hiit" then some 14
  else if t = "spinning" then some 12
  else if t = "other" then some 6
  else none

/-- The per-exercise minute contribution described by the claim: the duration
when present and nonzero, otherwise the number of sets when both sets and reps
are nonzero, otherwise zero. -/
def exerciseContribution (ex : Exercise) : Int :=
  if truthyNum ex.duration then ex.duration.getD 0
  else if truthyNum ex.sets && truthyNum ex.reps then ex.sets.getD 0
  else 0

theorem durationStep_eq (acc : Int) (ex : Exercise) :
    durationStep acc ex = acc + exerciseContribution ex := by
  unfold durationStep exerciseContribution
  cases truthyNum ex.duration <;> cases truthyNum ex.sets && truthyNum ex.reps <;>
    simp

theorem foldl_durationStep (l : List Exercise) (acc : Int) :
    l.foldl durationStep acc = acc + (l.map exerciseContribution).sum := by
  induction l generalizing acc with
  | nil => simp
  | cons ex tl ih =>
    rw [List.foldl_cons, ih, List.map_cons, List.sum_cons, durationStep_eq]
    ring

theorem totalDurationOf_eq_sum (l : List Exercise) :
    totalDurationOf l = (l.map exerciseContribution).sum := by
  rw [totalDurationOf, foldl_durationStep, zero_add]

theorem caloriesPerMinFor_eq_spec (t : String) (c : Int)
    (hc : specKcalPerMin t = some c) : caloriesPerMinFor t = c := by
  unfold specKcalPerMin at hc
  split_ifs at hc with h1 h2 h3 h4 h5 h6
  · subst h1; cases hc; decide
  · subst h2; cases hc; decide
  · subst h3; cases hc; decide
  · subst h4; cases hc; decide
  · subst h5; cases hc; decide
  · subst h6; cases hc; decide

theorem handleSaveWorkout_eq_some {db : DB} {uid t : String} {exs : List Exercise}
    {now : Nat} {out : SaveOutcome}
    (h : handleSaveWorkout db uid t exs now = some out) :
    out = savedOutcome db uid t exs now := by
  unfold handleSaveWorkout at h
  split at h
  · cases h
  · cases h; rfl

theorem savedOutcome_row (db : DB) (uid t : String) (exs : List Exercise)
    (now : Nat) : (savedOutcome db uid t exs now).row = savedRow db uid t exs now := rfl

theorem roundHalfUp_mul_one (a b : ℤ) :
    roundHalfUp (a * b) 1 = mathRound ((a : ℚ) * (b : ℚ)) := by
  rw [roundHalfUp_spec _ 1 one_pos]
  congr 1
  push_cast
  ring

theorem roundHalfUp_ten (n : ℤ) :
    roundHalfUp n 10 = mathRound ((n : ℚ) * POINTS_PER_CALORIE) := by
  rw [roundHalfUp_spec n 10 (by norm_num), POINTS_PER_CALORIE]
  congr 1
  push_cast
  ring

/-- C1: for a workout saved with selected type `t` (with per-minute constant `c`
in the claim's table) and computed total duration `D`, the stored
`calories_burned` is `round(D * c)` and the stored `points_earned` is
`round(calories_burned * 0.1)`. -/
theorem c1_calories_and_points_formula (db : DB) (uid t : String)
    (exs : List Exercise) (now : Nat) (out : SaveOutcome) (c : Int)
    (hsave : handleSaveWorkout db uid t exs now = some out)
    (hc : specKcalPerMin t = some c) :
    out.row.calories_burned
        = mathRound ((out.row.total_duration_minutes : ℚ) * (c : ℚ))
    ∧ out.row.points_earned
        = mathRound ((out.row.calories_burned : ℚ) * POINTS_PER_CALORIE) := by
  have hout := handleSaveWorkout_eq_some hsave
  subst hout
  rw [savedOutcome_row]
  unfold savedRow
  simp only
  rw [caloriesPerMinFor_eq_spec t c hc]
  exact ⟨roundHalfUp_mul_one _ _, roundHalfUp_ten _⟩

def exW : Exercise := { name := "Run", duration := some 30 }

def outW : SaveOutcome := savedOutcome {} "u" "cardio" [exW] 0

theorem c1_witness :
    handleSaveWorkout {} "u" "cardio" [exW] 0 = some outW
    ∧ specKcalPerMin "cardio" = some 10
    ∧ (outW.row.calories_burned
          = mathRound ((outW.row.total_duration_minutes : ℚ) * ((10 : ℤ) : ℚ))
       ∧ outW.row.points_earned
          = mathRound ((outW.row.calories_burned : ℚ) * POINTS_PER_CALORIE)) :=
  ⟨by decide, by decide,
   c1_calories_and_points_formula {} "u" "cardio" [exW] 0 outW 10 (by decide) (by decide)⟩

/-- C9: the computed total duration sums, over the exercises whose trimmed name
is non-blank, the duration when present and nonzero, else the number of sets
when sets and reps are both nonzero, else zero; blank-name exercises are
excluded, and when every exercise has a blank name the save is rejected with no
database write. -/
theorem c9_duration_rule_and_blank_rejection (db : DB) (uid t : String)
    (exs : List Exercise) (now : Nat) :
    (∀ out : SaveOutcome, handleSaveWorkout db uid t exs now = some out →
        out.row.exercises = exs.filter (fun ex => jsTrim ex.name != "")
        ∧ out.row.total_duration_minutes
            = ((exs.filter (fun ex => jsTrim ex.name != "")).map
                exerciseContribution).sum)
    ∧ ((∀ ex ∈ exs, jsTrim ex.name = "") →
        handleSaveWorkout db uid t exs now = none) := by
  constructor
  · intro out hsave
    have hout := handleSaveWorkout_eq_some hsave
    subst hout
    rw [savedOutcome_row]
    refine ⟨rfl, ?_⟩
    show totalDurationOf (validExercisesOf exs) = _
    rw [totalDurationOf_eq_sum]
    rfl
  · intro hall
    unfold handleSaveWorkout
    have hnil : validExercisesOf exs = [] := by
      unfold validExercisesOf
      rw [List.filter_eq_nil_iff]
      intro a ha
      simp [hall a ha]
    simp [hnil]

theorem c9_witness :
    (outW.row.exercises = [exW].filter (fun ex => jsTrim ex.name != "")
     ∧ outW.row.total_duration_minutes
        = (([exW].filter (fun ex => jsTrim ex.name != "")).map
            exerciseContribution).sum)
    ∧ handleSaveWorkout {} "u" "cardio" [{ name := " " }] 0 = none :=
  ⟨(c9_duration_rule_and_blank_rejection {} "u" "cardio" [exW] 0).1 outW (by decide),
   (c9_duration_rule_and_blank_rejection {} "u" "cardio" [{ name := " " }] 0).2
     (by decide)⟩

theorem find?_of_filter_eq_singleton {α : Type} (p : α → Bool) (l : List α) (x : α)
    (h : l.filter p = [x]) : l.find? p = some x := by
  induction l with
  | nil => simp at h
  | cons a tl ih =>
    by_cases ha : p a = true
    · rw [List.filter_cons_of_pos ha] at h
      rw [List.find?_cons_of_pos _ ha]
      injection h with h1 h2
      rw [h1]
    · rw [List.filter_cons_of_neg ha] at h
      rw [List.find?_cons_of_neg _ ha]
      exact ih h

theorem jsOrElse_some_zero (x : Int) : jsOrElse (some x) 0 = x := by
  by_cases h : x = 0 <;> simp [jsOrElse, h]

/-- C7: a successful save appends exactly one row to `workouts` (all existing
workout rows are untouched), and the only profile change is that the saving
user's row gets `total_points := previous total_points + points_earned`; all
other profile fields, all other profiles, and the other tables are unchanged. -/
theorem c7_save_frame (db : DB) (uid t : String) (exs : List Exercise) (now : Nat)
    (out : SaveOutcome) (p : ProfileRow)
    (hsave : handleSaveWorkout db uid t exs now = some out)
    (huniq : db.profiles.filter (fun q => q.user_id == uid) = [p]) :
    out.db.workouts = db.workouts ++ [out.row]
    ∧ out.db.profiles = db.profiles.map (fun q =>
        if q.user_id == uid then
          { q with total_points := p.total_points + out.row.points_earned }
        else q)
    ∧ out.db.gyms = db.gyms ∧ out.db.user_roles = db.user_roles
    ∧ out.db.partners = db.partners := by
  have hout := handleSaveWorkout_eq_some hsave
  subst hout
  have hfind : db.profiles.find? (fun q => q.user_id == uid) = some p :=
    find?_of_filter_eq_singleton _ _ _ huniq
  unfold savedOutcome
  simp [hfind, jsOrElse_some_zero]

def profW : ProfileRow := { user_id := "u", total_points := 7 }

def dbW : DB := { profiles := [profW] }

def outW7 : SaveOutcome := savedOutcome dbW "u" "cardio" [exW] 0

theorem c7_witness :
    handleSaveWorkout dbW "u" "cardio" [exW] 0 = some outW7
    ∧ dbW.profiles.filter (fun q => q.user_id == "u") = [profW]
    ∧ (outW7.db.workouts = dbW.workouts ++ [outW7.row]
       ∧ outW7.db.profiles = dbW.profiles.map (fun q =>
           if q.user_id == "u" then
             { q with total_points := profW.total_points + outW7.row.points_earned }
           else q)
       ∧ outW7.db.gyms = dbW.gyms ∧ outW7.db.user_roles = dbW.user_roles
       ∧ outW7.db.partners = dbW.partners) :=
  ⟨by decide, by decide,
   c7_save_frame dbW "u" "cardio" [exW] 0 outW7 profW (by decide) (by decide)⟩

/-! ## Auth page: role-based redirect (`onAuthStateChange` / `getSession`) and
the member pages' auth gate -/

/-- The Auth page's redirect after a session is present: fetch the user's
`user_roles` rows (`.eq("user_id", uid)`), test
`roles?.some((r) => r.role === "owner")`, and navigate accordingly. -/
def navTargetAfterAuth (roles : List RoleRow) (uid : String) : String :=
  if (roles.filter (fun r => r.user_id == uid)).any (fun r => r.role == "owner")
  then "/owner-dashboard"
  else "/"

/-- The member pages' auth gate (`useEffect` of the Workout page):
`if (!authLoading && !user) navigate("/auth")`. -/
def memberPageAuthRedirect (authLoading : Bool) (user : Option String) :
    Option String :=
  if !authLoading && user.isNone then some "/auth" else none

/-- C5: after authentication the Auth page navigates to `/owner-dashboard` iff
the user's `user_roles` rows include the role `owner`, and to `/` otherwise; an
unauthenticated user on a member page is redirected to `/auth`. -/
theorem c5_role_redirects (roles : List RoleRow) (uid : String) :
    (navTargetAfterAuth roles uid = "/owner-dashboard"
       ↔ ∃ r ∈ roles, r.user_id = uid ∧ r.role = "owner")
    ∧ (¬ (∃ r ∈ roles, r.user_id = uid ∧ r.role = "owner") →
        navTargetAfterAuth roles uid = "/")
    ∧ memberPageAuthRedirect false none = some "/auth" := by
  have key : ((roles.filter (fun r => r.user_id == uid)).any
        (fun r => r.role == "owner")) = true
      ↔ ∃ r ∈ roles, r.user_id = uid ∧ r.role = "owner" := by
    simp only [List.any_eq_true, List.mem_filter, beq_iff_eq]
    tauto
  refine ⟨?_, ?_, rfl⟩
  · by_cases h : ((roles.filter (fun r => r.user_id == uid)).any
        (fun r => r.role == "owner")) = true
    · rw [navTargetAfterAuth, if_pos h]
      exact iff_of_true rfl (key.mp h)
    · rw [navTargetAfterAuth, if_neg h]
      exact iff_of_false (by decide) (fun hex => h (key.mpr hex))
  · intro hne
    rw [navTargetAfterAuth, if_neg (fun h => hne (key.mp h))]

def roleW : RoleRow := { user_id := "u", role := "owner" }

theorem c5_witness :
    navTargetAfterAuth [roleW] "u" = "/owner-dashboard"
    ∧ navTargetAfterAuth [] "u" = "/" :=
  ⟨(c5_role_redirects [roleW] "u").1.mpr ⟨roleW, by simp, rfl, rfl⟩,
   (c5_role_redirects [] "u").2.1 (by simp)⟩

/-! ## Row-level security of the partners table -/

/-- `SELECT id FROM public.gyms WHERE owner_id = auth.uid()`. -/
def ownedGymIds (db : DB) (uid : String) : List String :=
  (db.gyms.filter (fun g => g.owner_id == uid)).map (·.id)

/-- The security-definer function `get_user_gym_id`:
`SELECT gym_id FROM public.profiles WHERE user_id = _user_id LIMIT 1`
(`none` both when no profile exists and when its `gym_id` is NULL). -/
def getUserGymId (db : DB) (uid : String) : Option String :=
  match db.profiles.find? (fun p => p.user_id == uid) with
  | some p => p.gym_id
  | none => none

/-- SELECT policy "Owners can view their gym partners":
`gym_id IN (SELECT id FROM gyms WHERE owner_id = auth.uid())`. -/
def ownersCanViewPolicy (db : DB) (uid : String) (row : PartnerRow) : Bool :=
  (ownedGymIds db uid).contains row.gym_id

/-- SELECT policy "Members can view partners for their gym":
`gym_id = get_user_gym_id(auth.uid())`; a SQL `=` against NULL is never
satisfied. -/
def membersCanViewPolicy (db : DB) (uid : String) (row : PartnerRow) : Bool :=
  match getUserGymId db uid with
  | some g => row.gym_id == g
  | none => false

/-- The two permissive SELECT policies on `public.partners` combine
disjunctively: a row is readable iff at least one policy accepts it. -/
def canSelectPartner (db : DB) (uid : String) (row : PartnerRow) : Bool :=
  ownersCanViewPolicy db uid row || membersCanViewPolicy db uid row

theorem ownersCanViewPolicy_iff (db : DB) (uid : String) (row : PartnerRow) :
    ownersCanViewPolicy db uid row = true
      ↔ ∃ g ∈ db.gyms, g.owner_id = uid ∧ g.id = row.gym_id := by
  unfold ownersCanViewPolicy ownedGymIds
  simp only [List.contains_iff_exists_mem_beq, List.mem_map, List.mem_filter,
    beq_iff_eq]
  constructor
  · rintro ⟨x, ⟨g, ⟨hg, hown⟩, hid⟩, hx⟩
    exact ⟨g, hg, hown, by rw [hid, hx]⟩
  · rintro ⟨g, hg, hown, hid⟩
    exact ⟨g.id, ⟨g, ⟨hg, hown⟩, rfl⟩, hid.symm⟩

theorem membersCanViewPolicy_iff (db : DB) (uid : String) (row : PartnerRow) :
    membersCanViewPolicy db uid row = true
      ↔ getUserGymId db uid = some row.gym_id := by
  unfold membersCanViewPolicy
  cases h : getUserGymId db uid with
  | none => simp
  | some g =>
    simp only [beq_iff_eq, Option.some_inj]
    exact eq_comm

/-- C2: under the partners SELECT policies, a partner row is readable iff the
user owns the partner's gym or the user's profile `gym_id` equals the partner's
`gym_id`; consequently a member whose profile points to a different gym and who
does not own the partner's gym cannot read the row. -/
theorem c2_partner_rls_visibility (db : DB) (uid : String) (row : PartnerRow) :
    (canSelectPartner db uid row = true
       ↔ (∃ g ∈ db.gyms, g.owner_id = uid ∧ g.id = row.gym_id)
         ∨ getUserGymId db uid = some row.gym_id)
    ∧ (∀ p : ProfileRow,
        db.profiles.find? (fun q => q.user_id == uid) = some p →
        p.gym_id ≠ some row.gym_id →
        (¬ ∃ g ∈ db.gyms, g.owner_id = uid ∧ g.id = row.gym_id) →
        canSelectPartner db uid row = false) := by
  have hiff : canSelectPartner db uid row = true
      ↔ (∃ g ∈ db.gyms, g.owner_id = uid ∧ g.id = row.gym_id)
        ∨ getUserGymId db uid = some row.gym_id := by
    unfold canSelectPartner
    rw [Bool.or_eq_true, ownersCanViewPolicy_iff, membersCanViewPolicy_iff]
  refine ⟨hiff, ?_⟩
  intro p hfind hne hnown
  cases hcs : canSelectPartner db uid row with
  | false => rfl
  | true =>
    exfalso
    rcases hiff.mp hcs with h | h
    · exact hnown h
    · apply hne
      rw [getUserGymId, hfind] at h
      exact h

def gymW : GymRow := { id := "g1", owner_id := "owner1" }

def memberProfW : ProfileRow := { user_id := "m", gym_id := some "g2" }

def partnerW : PartnerRow := { id := "p1", gym_id := "g1" }

def dbC2 : DB := { gyms := [gymW], profiles := [memberProfW], partners := [partnerW] }

theorem c2_witness :
    dbC2.profiles.find? (fun q => q.user_id == "m") = some memberProfW
    ∧ memberProfW.gym_id ≠ some partnerW.gym_id
    ∧ (¬ ∃ g ∈ dbC2.gyms, g.owner_id = "m" ∧ g.id = partnerW.gym_id)
    ∧ canSelectPartner dbC2 "m" partnerW = false :=
  ⟨by decide, by decide, by decide,
   (c2_partner_rls_visibility dbC2 "m" partnerW).2 memberProfW (by decide)
     (by decide) (by decide)⟩

/-! ## The suggest-exercises serverless endpoint -/

/-- An exercise of the endpoint's JSON reply / fallback tables. -/
structure FallbackExercise where
  name : String
  sets : Option Nat := none
  reps : Option Nat := none
  duration_minutes : Option Nat := none
deriving Repr, DecidableEq

/-- `getFallbackExercises` of the endpoint:
`fallbacks[workout_type] || fallbacks.other`. -/
def getFallbackExercises (workout_type : String) : List FallbackExercise :=
  if workout_type = "weights" then
    [{ name := "Bench Press", sets := some 3, reps := some 10 },
     { name := "Squats", sets := some 3, reps := some 12 },
     { name := "Deadlift", sets := some 3, reps := some 8 },
     { name := "Shoulder Press", sets := some 3, reps := some 10 }]
  else if workout_type = "cardio" then
    [{ name := "Treadmill Jog", duration_minutes := some 15 },
     { name := "Stationary Bike", duration_minutes := some 10 },
     { name := "Rowing Machine", duration_minutes := some 10 }]
  else if workout_type = "aerobics" then
    [{ name := "Step Aerobics", duration_minutes := some 20 },
     { name := "Dance Cardio", duration_minutes := some 15 }]
  else if workout_type = "hiit" then
    [{ name := "Burpees", sets := some 4, reps := some 10 },
     { name := "Mountain Climbers", sets := some 4, reps := some 20 },
     { name := "Box Jumps", sets := some 4, reps := some 12 }]
  else if workout_type = "spinning" then
    [{ name := "Warm-up Ride", duration_minutes := some 5 },
     { name := "Hill Climb", duration_minutes := some 10 },
     { name := "Sprint Intervals", duration_minutes := some 10 }]
  else
    [{ name := "Stretching", duration_minutes := some 10 },
     { name := "Yoga Flow", duration_minutes := some 15 }]

/-- The upstream gateway's reply as seen by the handler: either the HTTP body
was not JSON (`response.json()` throws, reaching the outer catch), or an
envelope whose message content yields `some exercises` when the inner JSON
extraction succeeds and `none` when it fails (no JSON object found, invalid
JSON, or missing content). -/
inductive GatewayReply where
  | notJson (errMsg : String)
  | chatContent (parsed : Option (List FallbackExercise))
deriving Repr, DecidableEq

/-- An HTTP response body of the endpoint: `{error}` or `{exercises}`. -/
inductive ResponseBody where
  | errorBody (msg : String)
  | exercisesBody (exercises : List FallbackExercise)
deriving Repr, DecidableEq

/-- An HTTP response of the endpoint (a `Response` with default status 200). -/
structure HttpResponse where
  status : Nat
  body : ResponseBody
deriving Repr, DecidableEq

/-- `response.ok`: status in the range 200-299. -/
def responseOk (status : Nat) : Bool := decide (200 ≤ status ∧ status < 300)

/-- The request handler of the `suggest-exercises` endpoint, after the upstream
fetch returned with the given `status` and reply. -/
def suggestExercisesServe (workout_type : String) (status : Nat)
    (reply : GatewayReply) : HttpResponse :=
  if !(responseOk status) then
    if status = 429 then
      { status := 429,
        body := .errorBody "Rate limit exceeded. Please try again later." }
    else if status = 402 then
      { status := 402,
        body := .errorBody "AI credits exhausted. Please add credits to continue." }
    else
      { status := 500, body := .errorBody ("AI gateway error: " ++ toString status) }
  else
    match reply with
    | .notJson errMsg => { status := 500, body := .errorBody errMsg }
    | .chatContent parsed =>
      { status := 200,
        body := .exercisesBody (match parsed with
          | some exercises => exercises
          | none => getFallbackExercises workout_type) }

/-- C3: a 429 from the gateway yields status 429 with an error body, a 402
yields status 402 with an error body, and an unparsable model content yields
status 200 with the fixed fallback table of the requested workout type (the
"other" table for an unrecognized type) rather than an error. -/
theorem c3_suggest_exercises_recovery (workout_type : String) (status : Nat)
    (reply : GatewayReply) :
    (status = 429 → suggestExercisesServe workout_type status reply
        = { status := 429,
            body := .errorBody "Rate limit exceeded. Please try again later." })
    ∧ (status = 402 → suggestExercisesServe workout_type status reply
        = { status := 402,
            body := .errorBody "AI credits exhausted. Please add credits to continue." })
    ∧ (responseOk status = true →
        suggestExercisesServe workout_type status (.chatContent none)
          = { status := 200,
              body := .exercisesBody (getFallbackExercises workout_type) })
    ∧ (workout_type ∉ ["weights", "cardio", "aerobics", "hiit", "spinning", "other"] →
        getFallbackExercises workout_type = getFallbackExercises "other") := by
  refine ⟨?_, ?_, ?_, ?_⟩
  · rintro rfl
    simp [suggestExercisesServe, responseOk]
  · rintro rfl
    simp [suggestExercisesServe, responseOk]
  · intro hok
    simp [suggestExercisesServe, hok]
  · intro hmem
    have h1 : workout_type ≠ "weights" := fun e => hmem (by simp [e])
    have h2 : workout_type ≠ "cardio" := fun e => hmem (by simp [e])
    have h3 : workout_type ≠ "aerobics" := fun e => hmem (by simp [e])
    have h4 : workout_type ≠ "hiit" := fun e => hmem (by simp [e])
    have h5 : workout_type ≠ "spinning" := fun e => hmem (by simp [e])
    rw [getFallbackExercises, if_neg h1, if_neg h2, if_neg h3, if_neg h4, if_neg h5]
    decide

theorem c3_witness :
    suggestExercisesServe "yoga" 429 (.chatContent none)
      = { status := 429,
          body := .errorBody "Rate limit exceeded. Please try again later." }
    ∧ suggestExercisesServe "yoga" 402 (.chatContent none)
      = { status := 402,
          body := .errorBody "AI credits exhausted. Please add credits to continue." }
    ∧ suggestExercisesServe "yoga" 200 (.chatContent none)
      = { status := 200, body := .exercisesBody (getFallbackExercises "yoga") }
    ∧ getFallbackExercises "yoga" = getFallbackExercises "other" :=
  ⟨(c3_suggest_exercises_recovery "yoga" 429 (.chatContent none)).1 rfl,
   (c3_suggest_exercises_recovery "yoga" 402 (.chatContent none)).2.1 rfl,
   (c3_suggest_exercises_recovery "yoga" 200 (.chatContent none)).2.2.1 (by decide),
   (c3_suggest_exercises_recovery "yoga" 0 (.chatContent none)).2.2.2 (by decide)⟩

/-! ## Owner dashboard: weekly visit aggregation (`loadMembers`)

Timestamps are minutes; the epoch of the time model is a local Sunday 00:00, so
a day is 1440 minutes, a week is 10080 minutes and `Date.getDay()` is
`(t / 1440) % 7`. -/

/-- `now.getDay()` in the minute time model. -/
def jsGetDay (now : Nat) : Nat := (now / 1440) % 7

/-- `startOfWeek` as `loadMembers` computes it: copy `now`, subtract
`getDay()` days with `setDate`, then `setHours(0, 0, 0, 0)`. -/
def startOfWeekCode (now : Nat) : Nat := (now / 1440 - jsGetDay now) * 1440

/-- The claim's "most recent Sunday 00:00": the greatest whole week boundary
not exceeding `now`. -/
def mostRecentSundayMidnight (now : Nat) : Nat := 10080 * (now / 10080)

theorem startOfWeekCode_eq (now : Nat) :
    startOfWeekCode now = mostRecentSundayMidnight now := by
  unfold startOfWeekCode jsGetDay mostRecentSundayMidnight
  omega

/-- The per-user record of `userWorkoutStats`. -/
structure WStats where
  total : Nat
  thisWeek : Nat
  lastVisit : Option Nat
deriving Repr, DecidableEq

/-- The record created on first sight of a user:
`{ total: 0, thisWeek: 0, lastVisit: null }`. -/
def initialStats : WStats := { total := 0, thisWeek := 0, lastVisit := none }

/-- The loop body of the `workoutsData.forEach` in `loadMembers`: bump the
user's total, count the workout when `workoutDate >= startOfWeek`, and keep the
latest `created_at` as `lastVisit`. -/
def statsStep (startOfWeek : Nat) (stats : String → WStats) (w : WorkoutRow) :
    String → WStats :=
  fun u =>
    if u = w.user_id then
      { total := (stats u).total + 1
        thisWeek :=
          if startOfWeek ≤ w.created_at then (stats u).thisWeek + 1
          else (stats u).thisWeek
        lastVisit :=
          match (stats u).lastVisit with
          | none => some w.created_at
          | some lv => if lv < w.created_at then some w.created_at else some lv }
    else stats u

/-- `userWorkoutStats` after the whole `forEach`, as a total map (users that
never appear keep `initialStats`, matching the `|| 0` reads). -/
def buildWorkoutStats (startOfWeek : Nat) (ws : List WorkoutRow) :
    String → WStats :=
  ws.foldl (statsStep startOfWeek) (fun _ => initialStats)

/-- A member row merged with the workout stats (`membersWithStats`). -/
structure MemberWithStats where
  profile : ProfileRow
  visits_this_week : Nat
  last_visit : Option Nat
  total_visits : Nat
deriving Repr, DecidableEq

/-- The aggregate `dashboardStats` of the owner dashboard. -/
structure DashboardStats where
  totalMembers : Nat
  visitsThisWeek : Nat
  activeMembers : Nat
deriving Repr, DecidableEq

/-- `loadMembers` of the owner dashboard, applied to the rows the two queries
returned: the gym's profile rows (`membersData`) and the gym's workout rows
(`workoutsData`). -/
def loadMembers (membersData : List ProfileRow) (workoutsData : List WorkoutRow)
    (now : Nat) : List MemberWithStats × DashboardStats :=
  let stats := buildWorkoutStats (startOfWeekCode now) workoutsData
  let membersWithStats := membersData.map (fun m =>
    { profile := m
      visits_this_week := (stats m.user_id).thisWeek
      last_visit := (stats m.user_id).lastVisit
      total_visits := (stats m.user_id).total })
  (membersWithStats,
   { totalMembers := membersWithStats.length
     visitsThisWeek := (membersWithStats.map (·.visits_this_week)).sum
     activeMembers :=
       (membersWithStats.filter (fun m => decide (0 < m.visits_this_week))).length })

theorem foldl_statsStep_thisWeek (sow : Nat) (ws : List WorkoutRow)
    (acc : String → WStats) (u : String) :
    ((ws.foldl (statsStep sow) acc) u).thisWeek
      = (acc u).thisWeek
        + (ws.filter (fun w =>
            w.user_id == u && decide (sow ≤ w.created_at))).length := by
  induction ws generalizing acc with
  | nil => simp
  | cons w tl ih =>
    rw [List.foldl_cons, ih, List.filter_cons]
    by_cases hu : u = w.user_id
    · by_cases hw : sow ≤ w.created_at
      · simp [statsStep, hu, hw]
        omega
      · simp [statsStep, hu, hw]
    · have : (w.user_id == u) = false := by
        simp [beq_iff_eq]
        exact fun e => hu e.symm
      simp [statsStep, hu, this]

theorem buildWorkoutStats_thisWeek (sow : Nat) (ws : List WorkoutRow)
    (u : String) :
    ((buildWorkoutStats sow ws) u).thisWeek
      = (ws.filter (fun w =>
          w.user_id == u && decide (sow ≤ w.created_at))).length := by
  rw [buildWorkoutStats, foldl_statsStep_thisWeek]
  simp [initialStats]

/-- C6: every member's `visits_this_week` counts exactly the gym's workout rows
of that member with `created_at` at or after the most recent Sunday 00:00;
`visitsThisWeek` is the sum of `visits_this_week` over the members; and
`activeMembers` counts the members with a positive `visits_this_week`. -/
theorem c6_owner_dashboard_weekly (db : DB) (g : String) (now : Nat)
    (membersData : List ProfileRow) :
    (∀ m ∈ (loadMembers membersData
        (db.workouts.filter (fun w => w.gym_id == some g)) now).1,
        m.visits_this_week
          = ((db.workouts.filter (fun w => w.gym_id == some g)).filter
              (fun w => w.user_id == m.profile.user_id
                && decide (mostRecentSundayMidnight now ≤ w.created_at))).length)
    ∧ (loadMembers membersData
        (db.workouts.filter (fun w => w.gym_id == some g)) now).2.visitsThisWeek
        = ((loadMembers membersData
            (db.workouts.filter (fun w => w.gym_id == some g)) now).1.map
              (·.visits_this_week)).sum
    ∧ (loadMembers membersData
        (db.workouts.filter (fun w => w.gym_id == some g)) now).2.activeMembers
        = ((loadMembers membersData
            (db.workouts.filter (fun w => w.gym_id == some g)) now).1.filter
              (fun m => decide (0 < m.visits_this_week))).length := by
  refine ⟨?_, rfl, rfl⟩
  intro m hm
  unfold loadMembers at hm
  simp only [List.mem_map] at hm
  obtain ⟨p, hp, rfl⟩ := hm
  show ((buildWorkoutStats (startOfWeekCode now) _) p.user_id).thisWeek = _
  rw [buildWorkoutStats_thisWeek, startOfWeekCode_eq]

def profC6 : ProfileRow := { user_id := "m1" }

def wA : WorkoutRow :=
  { user_id := "m1", gym_id := some "g", workout_type := "cardio",
    exercises := [], total_duration_minutes := 0, calories_burned := 0,
    points_earned := 0, created_at := 10100 }

def wB : WorkoutRow :=
  { user_id := "m1", gym_id := some "g", workout_type := "cardio",
    exercises := [], total_duration_minutes := 0, calories_burned := 0,
    points_earned := 0, created_at := 100 }

def dbC6 : DB := { workouts := [wA, wB] }

def memC6 : MemberWithStats :=
  { profile := profC6, visits_this_week := 1, last_visit := some 10100,
    total_visits := 2 }

theorem c6_witness :
    memC6 ∈ (loadMembers [profC6]
        (dbC6.workouts.filter (fun w => w.gym_id == some "g")) 10150).1
    ∧ memC6.visits_this_week
        = ((dbC6.workouts.filter (fun w => w.gym_id == some "g")).filter
            (fun w => w.user_id == memC6.profile.user_id
              && decide (mostRecentSundayMidnight 10150 ≤ w.created_at))).length :=
  ⟨by decide,
   (c6_owner_dashboard_weekly dbC6 "g" 10150 [profC6]).1 memC6 (by decide)⟩

/-! ## Leaderboard page (`fetchLeaderboard`) -/

/-- A `LeaderboardEntry` of the Leaderboard page. -/
structure LBEntry where
  rank : Nat
  name : String
  points : Int
  visits : Int
  change : Int
  isCurrentUser : Bool
deriving Repr, DecidableEq

/-- `member.name || "Unknown"`. -/
def jsNameOrUnknown (name : Option String) : String :=
  match name with
  | some s => if s = "" then "Unknown" else s
  | none => "Unknown"

/-- One leaderboard entry as `fetchLeaderboard` builds it from a fetched
`(user_id, name)` row and three `Math.random()` draws `r1 r2 r3`:
`points = Math.floor(r1 * 2000) + 500`, `visits = Math.floor(r2 * 20) + 5`,
`change = Math.floor(r3 * 5) - 2`; `rank` starts at 0. -/
def mkEntry (uid : String) (member : String × Option String)
    (r1 r2 r3 : ℚ) : LBEntry :=
  { rank := 0
    name := jsNameOrUnknown member.2
    points := ⌊r1 * 2000⌋ + 500
    visits := ⌊r2 * 20⌋ + 5
    change := ⌊r3 * 5⌋ - 2
    isCurrentUser := member.1 == uid }

/-- The `members.map(...)` of `fetchLeaderboard`, with the random stream
consumed three draws per entry: entry `i` uses draws `3i, 3i+1, 3i+2`. -/
def mkEntriesFrom (uid : String) (stream : Nat → ℚ) :
    Nat → List (String × Option String) → List LBEntry
  | _, [] => []
  | i, m :: ms =>
    mkEntry uid m (stream (3 * i)) (stream (3 * i + 1)) (stream (3 * i + 2))
      :: mkEntriesFrom uid stream (i + 1) ms

/-- `leaderboardData` before sorting, in fetched-member order. -/
def mkEntries (uid : String) (members : List (String × Option String))
    (stream : Nat → ℚ) : List LBEntry :=
  mkEntriesFrom uid stream 0 members

/-- The ordering realised by the comparator `(a, b) => b.points - a.points`. -/
def lbOrder (a b : LBEntry) : Prop := b.points ≤ a.points

instance : DecidableRel lbOrder := fun a b =>
  inferInstanceAs (Decidable (b.points ≤ a.points))

instance : IsTotal LBEntry lbOrder := ⟨fun a b => le_total b.points a.points⟩

instance : IsTrans LBEntry lbOrder := ⟨fun _ _ _ hab hbc => le_trans hbc hab⟩

/-- `leaderboardData.sort((a, b) => b.points - a.points)`: ECMAScript 2019
requires `Array.prototype.sort` to be stable, and the stable descending-by-
points permutation is computed by stable insertion sort. -/
def sortByPointsDesc (l : List LBEntry) : List LBEntry :=
  List.insertionSort lbOrder l

/-- `leaderboardData.forEach((entry, index) => entry.rank = index + 1)`,
starting at index `i`. -/
def assignRanksFrom (i : Nat) : List LBEntry → List LBEntry
  | [] => []
  | e :: es => { e with rank := i + 1 } :: assignRanksFrom (i + 1) es

/-- The leaderboard finally rendered for a fetched member list. -/
def fetchLeaderboardEntries (uid : String)
    (members : List (String × Option String)) (stream : Nat → ℚ) :
    List LBEntry :=
  assignRanksFrom 0 (sortByPointsDesc (mkEntries uid members stream))

/-- The gym-scope member query of `fetchLeaderboard`:
`.select("user_id, name").eq("gym_id", profile.gym_id)`. -/
def fetchGymScopeMembers (db : DB) (g : String) :
    List (String × Option String) :=
  (db.profiles.filter (fun p => p.gym_id == some g)).map
    (fun p => (p.user_id, p.name))

/-- The gym-scope leaderboard fetch. -/
def fetchLeaderboardGym (db : DB) (uid g : String) (stream : Nat → ℚ) :
    List LBEntry :=
  fetchLeaderboardEntries uid (fetchGymScopeMembers db g) stream

/-- Forget the `rank` field (the only field the rank-assignment pass mutates). -/
def eraseRank (e : LBEntry) : LBEntry := { e with rank := 0 }

theorem assignRanksFrom_map_points (i : Nat) (l : List LBEntry) :
    (assignRanksFrom i l).map (·.points) = l.map (·.points) := by
  induction l generalizing i with
  | nil => rfl
  | cons e es ih => simp [assignRanksFrom, ih]

theorem assignRanksFrom_map_rank (i : Nat) (l : List LBEntry) :
    (assignRanksFrom i l).map (·.rank) = List.range' (i + 1) l.length := by
  induction l generalizing i with
  | nil => rfl
  | cons e es ih => simp [assignRanksFrom, ih, List.range'_succ]

theorem mkEntriesFrom_length (uid : String) (stream : Nat → ℚ) (i : Nat)
    (ms : List (String × Option String)) :
    (mkEntriesFrom uid stream i ms).length = ms.length := by
  induction ms generalizing i with
  | nil => rfl
  | cons m ms ih => simp [mkEntriesFrom, ih]

theorem filter_orderedInsert_points (x : LBEntry) (l : List LBEntry) (p : ℤ) :
    (List.orderedInsert lbOrder x l).filter (fun e => e.points == p)
      = if x.points == p then x :: l.filter (fun e => e.points == p)
        else l.filter (fun e => e.points == p) := by
  induction l with
  | nil =>
    cases hx : (x.points == p) <;> simp [hx, List.filter_cons]
  | cons y ys ih =>
    rw [List.orderedInsert]
    by_cases hin : lbOrder x y
    · rw [if_pos hin]
      cases hx : (x.points == p) <;> simp [hx, List.filter_cons]
    · rw [if_neg hin, List.filter_cons]
      by_cases hy : y.points = p
      · have hxp : x.points ≠ p := fun hxe => hin (by rw [lbOrder, hy, hxe])
        simp [hy, hxp, ih, List.filter_cons]
      · by_cases hx : x.points = p <;> simp [hy, hx, ih, List.filter_cons]

theorem filter_sortByPointsDesc (l : List LBEntry) (p : ℤ) :
    (sortByPointsDesc l).filter (fun e => e.points == p)
      = l.filter (fun e => e.points == p) := by
  unfold sortByPointsDesc
  induction l with
  | nil => rfl
  | cons x xs ih =>
    rw [List.insertionSort, filter_orderedInsert_points, List.filter_cons]
    cases hx : (x.points == p) <;> simp [hx, ih]

theorem filter_assignRanksFrom_eraseRank (i : Nat) (l : List LBEntry) (p : ℤ) :
    ((assignRanksFrom i l).filter (fun e => e.points == p)).map eraseRank
      = (l.filter (fun e => e.points == p)).map eraseRank := by
  induction l generalizing i with
  | nil => rfl
  | cons e es ih =>
    have hc : (({ e with rank := i + 1 } : LBEntry).points == p)
        = (e.points == p) := rfl
    have hhead : eraseRank { e with rank := i + 1 } = eraseRank e := rfl
    rw [assignRanksFrom, List.filter_cons, List.filter_cons, hc]
    cases he : (e.points == p) <;> simp [he, hhead, ih]

theorem sortByPointsDesc_length (l : List LBEntry) :
    (sortByPointsDesc l).length = l.length :=
  List.length_insertionSort lbOrder l

/-- C4: the rendered leaderboard is non-increasing in points, its ranks are
`1..n` in list order, and entries with equal points keep the relative order of
the fetched member list (the sort is stable on ties). -/
theorem c4_leaderboard_sort_stable (uid : String)
    (members : List (String × Option String)) (stream : Nat → ℚ) :
    List.Sorted (fun x y : ℤ => y ≤ x)
        ((fetchLeaderboardEntries uid members stream).map (·.points))
    ∧ (fetchLeaderboardEntries uid members stream).map (·.rank)
        = List.range' 1 members.length
    ∧ ∀ p : ℤ,
        ((fetchLeaderboardEntries uid members stream).filter
            (fun e => e.points == p)).map eraseRank
          = ((mkEntries uid members stream).filter
              (fun e => e.points == p)).map eraseRank := by
  refine ⟨?_, ?_, ?_⟩
  · rw [fetchLeaderboardEntries, assignRanksFrom_map_points]
    have h : List.Sorted lbOrder (sortByPointsDesc (mkEntries uid members stream)) :=
      List.sorted_insertionSort lbOrder _
    exact List.Pairwise.map _ (fun a b hab => hab) h
  · rw [fetchLeaderboardEntries, assignRanksFrom_map_rank,
      sortByPointsDesc_length, mkEntries, mkEntriesFrom_length]
  · intro p
    rw [fetchLeaderboardEntries, filter_assignRanksFrom_eraseRank,
      filter_sortByPointsDesc]

theorem mem_assignRanksFrom {e : LBEntry} {i : Nat} {l : List LBEntry}
    (h : e ∈ assignRanksFrom i l) :
    ∃ e' ∈ l, e.points = e'.points ∧ e.visits = e'.visits
      ∧ e.change = e'.change := by
  induction l generalizing i with
  | nil => cases h
  | cons x xs ih =>
    rw [assignRanksFrom] at h
    rcases List.mem_cons.mp h with rfl | h'
    · exact ⟨x, List.mem_cons_self x xs, rfl, rfl, rfl⟩
    · obtain ⟨e', he', hp⟩ := ih h'
      exact ⟨e', List.mem_cons_of_mem x he', hp⟩

theorem mem_mkEntriesFrom {e : LBEntry} {uid : String} {stream : Nat → ℚ}
    {i : Nat} {ms : List (String × Option String)}
    (h : e ∈ mkEntriesFrom uid stream i ms) :
    ∃ j m, e = mkEntry uid m (stream (3 * j)) (stream (3 * j + 1))
      (stream (3 * j + 2)) := by
  induction ms generalizing i with
  | nil => cases h
  | cons m ms ih =>
    rw [mkEntriesFrom] at h
    rcases List.mem_cons.mp h with rfl | h'
    · exact ⟨i, m, rfl⟩
    · exact ih h'

theorem floor_scale_bounds (r : ℚ) (k : Nat) (h0 : 0 ≤ r) (h1 : r < 1) :
    0 ≤ ⌊r * (k : ℚ)⌋ ∧ ⌊r * (k : ℚ)⌋ < (k : ℤ) ∨ k = 0 ∧ ⌊r * (k : ℚ)⌋ = 0 := by
  rcases Nat.eq_zero_or_pos k with hk | hk
  · right
    subst hk
    simp
  · left
    have hkq : (0 : ℚ) < (k : ℚ) := by exact_mod_cast hk
    constructor
    · exact Int.floor_nonneg.mpr (mul_nonneg h0 (le_of_lt hkq))
    · rw [Int.floor_lt]
      push_cast
      nlinarith

theorem mkEntry_bounds (uid : String) (m : String × Option String)
    (r1 r2 r3 : ℚ) (h1 : 0 ≤ r1) (h1' : r1 < 1) (h2 : 0 ≤ r2) (h2' : r2 < 1)
    (h3 : 0 ≤ r3) (h3' : r3 < 1) :
    (500 ≤ (mkEntry uid m r1 r2 r3).points
      ∧ (mkEntry uid m r1 r2 r3).points ≤ 2499)
    ∧ (5 ≤ (mkEntry uid m r1 r2 r3).visits
      ∧ (mkEntry uid m r1 r2 r3).visits ≤ 24)
    ∧ (-2 ≤ (mkEntry uid m r1 r2 r3).change
      ∧ (mkEntry uid m r1 r2 r3).change ≤ 2) := by
  have b1 := floor_scale_bounds r1 2000 h1 h1'
  have b2 := floor_scale_bounds r2 20 h2 h2'
  have b3 := floor_scale_bounds r3 5 h3 h3'
  unfold mkEntry
  simp only
  push_cast at b1 b2 b3
  refine ⟨⟨?_, ?_⟩, ⟨?_, ?_⟩, ⟨?_, ?_⟩⟩ <;> omega

theorem filter_map_update_points (l : List ProfileRow) (g : String)
    (f : ProfileRow → Int) :
    ((l.map (fun p => { p with total_points := f p })).filter
        (fun p => p.gym_id == some g)).map (fun p => (p.user_id, p.name))
      = (l.filter (fun p => p.gym_id == some g)).map
          (fun p => (p.user_id, p.name)) := by
  induction l with
  | nil => rfl
  | cons p tl ih =>
    have hc : (({ p with total_points := f p } : ProfileRow).gym_id == some g)
        = (p.gym_id == some g) := rfl
    rw [List.map_cons, List.filter_cons, List.filter_cons, hc]
    cases hg : (p.gym_id == some g) <;> simp [hg, ih]

def profC8 : ProfileRow := { user_id := "u", gym_id := some "g" }

def dbC8 : DB := { profiles := [profC8] }

/-- C8: every displayed leaderboard entry draws `points ∈ [500, 2499]`,
`visits ∈ [5, 24]` and `change ∈ [-2, 2]` fresh from the random stream; the
output never depends on the stored `profiles.total_points` or on the
`workouts` table; and two fetches over the same database contents can display
different points. -/
theorem c8_leaderboard_mock_randomness (db : DB) (uid g : String)
    (stream : Nat → ℚ) (hs : ∀ n, 0 ≤ stream n ∧ stream n < 1) :
    (∀ e ∈ fetchLeaderboardGym db uid g stream,
        (500 ≤ e.points ∧ e.points ≤ 2499)
        ∧ (5 ≤ e.visits ∧ e.visits ≤ 24)
        ∧ (-2 ≤ e.change ∧ e.change ≤ 2))
    ∧ (∀ (f : ProfileRow → Int) (ws : List WorkoutRow),
        fetchLeaderboardGym
          { db with
            profiles := db.profiles.map (fun p => { p with total_points := f p })
            workouts := ws } uid g stream
          = fetchLeaderboardGym db uid g stream)
    ∧ fetchLeaderboardGym dbC8 "u" "g" (fun _ => 0)
        ≠ fetchLeaderboardGym dbC8 "u" "g" (fun _ => 1/2) := by
  refine ⟨?_, ?_, ?_⟩
  · intro e he
    rw [fetchLeaderboardGym, fetchLeaderboardEntries] at he
    obtain ⟨e', he', hpts, hvis, hchg⟩ := mem_assignRanksFrom he
    rw [sortByPointsDesc, List.mem_insertionSort] at he'
    obtain ⟨j, m, rfl⟩ := mem_mkEntriesFrom he'
    rw [hpts, hvis, hchg]
    exact mkEntry_bounds uid m _ _ _ (hs _).1 (hs _).2 (hs _).1 (hs _).2
      (hs _).1 (hs _).2
  · intro f ws
    unfold fetchLeaderboardGym
    exact congrArg (fun ms => fetchLeaderboardEntries uid ms stream)
      (filter_map_update_points db.profiles g f)
  · intro heq
    have hpts : ((fetchLeaderboardGym dbC8 "u" "g" (fun _ => 0)).map (·.points))
        = ((fetchLeaderboardGym dbC8 "u" "g" (fun _ => 1/2)).map (·.points)) := by
      rw [heq]
    rw [fetchLeaderboardGym, fetchLeaderboardGym, fetchLeaderboardEntries,
      fetchLeaderboardEntries, assignRanksFrom_map_points,
      assignRanksFrom_map_points] at hpts
    have hmembers : fetchGymScopeMembers dbC8 "g" = [("u", none)] := rfl
    rw [hmembers] at hpts
    have h0 : sortByPointsDesc (mkEntries "u" [("u", none)] (fun _ => 0))
        = [mkEntry "u" ("u", none) 0 0 0] := rfl
    have h1 : sortByPointsDesc (mkEntries "u" [("u", none)] (fun _ => 1/2))
        = [mkEntry "u" ("u", none) (1/2) (1/2) (1/2)] := rfl
    rw [h0, h1] at hpts
    simp only [List.map_cons, List.map_nil, List.cons.injEq, and_true] at hpts
    unfold mkEntry at hpts
    simp only at hpts
    norm_num at hpts

theorem c8_witness :
    (∀ _n : Nat, (0 : ℚ) ≤ 0 ∧ (0 : ℚ) < 1)
    ∧ fetchLeaderboardGym dbC8 "u" "g" (fun _ => 0)
        ≠ fetchLeaderboardGym dbC8 "u" "g" (fun _ => 1/2) :=
  ⟨fun _ => ⟨le_refl 0, zero_lt_one⟩,
   (c8_leaderboard_mock_randomness dbC8 "u" "g" (fun _ => 0)
     (fun _ => ⟨le_refl 0, zero_lt_one⟩)).2.2⟩

end FlexiQuest
